import Mathlib

/-!
Shallow embedding of `openai_key_tester.py` (class `OpenAIKeyTester`).

The program is a four-stage API-key validation pipeline:
  1. `check_api_key_format`   — purely local format check of the credential;
  2. `test_connectivity`      — one GET request to the model-listing endpoint;
  3. `test_model_availability`— model metadata lookup with a fallback lookup;
  4. `test_simple_completion` — one chat-completion inference call.
`run_comprehensive_test` runs them in order, short-circuiting after a stage-1
or stage-2 failure, and returns an ordered dict `results : stage name → bool`.
`print_summary` folds that dict into an aggregate classification.

Network and SDK collaborators are modelled as input data (`World`): each call
site the pipeline can reach is given its outcome (HTTP response / raised
exception class, already classified the way the except-clauses of the source
classify them).  The colored printing helpers `print_success`, `print_error`,
`print_warning`, `print_info` are modelled as emitting tagged messages
(`Msg`); each stage returns its boolean result together with the list of
messages it emits, and the pipeline returns the results dict together with
the full emitted trace.  Bare `print()` calls and `print_header` (blank lines
and decorative headers, no diagnostic content) are not modelled.
-/

namespace KeyTester

/-- A message emitted through one of the four tagged printing helpers of
`OpenAIKeyTester` (`print_success`, `print_error`, `print_warning`,
`print_info`). -/
inductive Msg
  | success (s : String)
  | error (s : String)
  | warning (s : String)
  | info (s : String)
deriving DecidableEq

/-- The configuration the tester constructor reads from the environment:
`OPENAI_API_KEY` (may be unset), `OPENAI_API_BASE` (may be unset) and
`OPENAI_MODEL` (defaulted to `gpt-3.5-turbo` by `os.getenv`). -/
structure Config where
  api_key : Option String
  api_base : Option String
  model : String
deriving DecidableEq

/-- Python truthiness of an optional string: `None` and the empty string are
falsy, every other string (a whitespace-only one included) is truthy.  Models
`not self.api_key` / `message.content` truthiness tests in the source. -/
def truthyStr : Option String → Bool
  | none => false
  | some s => s ≠ ""

/-- Python `s.startswith(p)`: Python strings are sequences of code points, so
this is a code-point-wise prefix test (`String.data` is the code-point
list). -/
def pyStartsWith (s p : String) : Bool := List.isPrefixOf p.data s.data

/-- Python `s.strip()`: drop whitespace code points from both ends. -/
def pyStrip (s : String) : String :=
  ⟨((s.data.dropWhile Char.isWhitespace).reverse.dropWhile Char.isWhitespace).reverse⟩

/-- Outcome of the single `requests.get` call of `test_connectivity`: a
response with a status code and body text, or one of the exception classes
distinguished by the except-clauses of the source (`Timeout`,
`ConnectionError`, any other `Exception` with its message). -/
inductive HttpOutcome
  | response (status : Nat) (text : String)
  | timeout
  | connectionError
  | otherError (msg : String)
deriving DecidableEq

/-- Outcome of a `client.models.retrieve(...)` call in
`test_model_availability`: found, a `NotFoundError`, or any other raised
error with its message. -/
inductive RetrieveOutcome
  | found
  | notFound
  | error (msg : String)
deriving DecidableEq

/-- Outcome of the `client.chat.completions.create(...)` call of
`test_simple_completion`: a response carrying `choices` (per choice the
`message.content`, which may be `None`), or one of the exception classes
distinguished by the except-clauses of the source (`AuthenticationError`,
`RateLimitError`, any other `APIError`, any other `Exception`). -/
inductive CompletionOutcome
  | response (choices : List (Option String))
  | authenticationError
  | rateLimitError
  | apiError (msg : String)
  | otherError (msg : String)
deriving DecidableEq

/-- The network/SDK collaborator for one pipeline invocation: the outcome of
each call site the pipeline can reach.  `retrievePrimary` is the lookup of
`self.model`, `retrieveFallback` the lookup of the baseline default
`gpt-3.5-turbo`. -/
structure World where
  modelsGet : HttpOutcome
  retrievePrimary : RetrieveOutcome
  retrieveFallback : RetrieveOutcome
  completionCreate : CompletionOutcome
deriving DecidableEq

/-- Diagnostic printed by `check_api_key_format` for an absent or empty
credential. -/
def msgNoKey : String :=
  "No API key found. Please set OPENAI_API_KEY in your .env file."

/-- Diagnostic printed by `check_api_key_format` for a credential without the
required `sk-` start. -/
def msgBadStart : String :=
  "Invalid API key format. OpenAI API keys should start with sk-."

/-- Diagnostic printed by `check_api_key_format` for a credential shorter
than 20 characters. -/
def msgTooShort : String :=
  "API key seems too short. Please check your API key."

/-- Diagnostic printed by `check_api_key_format` for a well-formed
credential. -/
def msgFormatValid : String :=
  "API key format looks valid."

/-- `OpenAIKeyTester.check_api_key_format`: the stage-1 format check.  It
reads only `self.api_key`, makes no network call, and returns its boolean
together with the message it prints. -/
def check_api_key_format (cfg : Config) : Bool × List Msg :=
  if ¬ truthyStr cfg.api_key then
    (false, [Msg.error msgNoKey])
  else
    let key := cfg.api_key.getD ""
    if ¬ pyStartsWith key "sk-" then
      (false, [Msg.error msgBadStart])
    else if key.length < 20 then
      (false, [Msg.error msgTooShort])
    else
      (true, [Msg.success msgFormatValid])

/-- `OpenAIKeyTester.test_connectivity`: the stage-2 connectivity check,
deciding on the outcome of the single GET request exactly as the if/elif
chain and except-clauses of the source do. -/
def test_connectivity (_cfg : Config) (net : HttpOutcome) : Bool × List Msg :=
  let pre := [Msg.info "Testing connectivity to OpenAI API..."]
  match net with
  | HttpOutcome.response status text =>
    if status = 200 then
      (true, pre ++ [Msg.success "Successfully connected to OpenAI API."])
    else if status = 401 then
      (false, pre ++ [Msg.error "Authentication failed. Please check your API key."])
    else if status = 403 then
      (false, pre ++ [Msg.error "Access forbidden. Your API key may not have the required permissions."])
    else
      (false, pre ++ [Msg.error ("Unexpected response: " ++ toString status ++ " - " ++ text)])
  | HttpOutcome.timeout =>
      (false, pre ++ [Msg.error "Connection timeout. Please check your internet connection."])
  | HttpOutcome.connectionError =>
      (false, pre ++ [Msg.error "Connection failed. Please check your internet connection."])
  | HttpOutcome.otherError m =>
      (false, pre ++ [Msg.error ("Unexpected error during connectivity test: " ++ m)])

/-- `OpenAIKeyTester.test_model_availability`: the stage-3 model lookup.  A
`NotFoundError` on the primary lookup triggers a fallback lookup of
`gpt-3.5-turbo`; the bare `except:` around the fallback turns both a
not-found and any other fallback error into the same failure.  Any other
error of the primary lookup is caught by the outer `except Exception`. -/
def test_model_availability (cfg : Config) (w : World) : Bool × List Msg :=
  let pre := [Msg.info ("Checking availability of model: " ++ cfg.model)]
  match w.retrievePrimary with
  | RetrieveOutcome.found =>
      (true, pre ++ [Msg.success ("Model " ++ cfg.model ++ " is available.")])
  | RetrieveOutcome.notFound =>
    let warn := Msg.warning ("Model " ++ cfg.model ++ " not found. Trying with gpt-3.5-turbo...")
    match w.retrieveFallback with
    | RetrieveOutcome.found =>
        (true, pre ++ [warn, Msg.success "Fallback model gpt-3.5-turbo is available."])
    | RetrieveOutcome.notFound =>
        (false, pre ++ [warn, Msg.error "Neither the specified model nor fallback model is available."])
    | RetrieveOutcome.error _ =>
        (false, pre ++ [warn, Msg.error "Neither the specified model nor fallback model is available."])
  | RetrieveOutcome.error m =>
      (false, pre ++ [Msg.error ("Error checking model availability: " ++ m)])

/-- `OpenAIKeyTester.test_simple_completion`: the stage-4 inference call.
The success test of the source is `response.choices and
response.choices[0].message.content`: only the first choice is inspected. -/
def test_simple_completion (cfg : Config) (w : World) : Bool × List Msg :=
  let pre := [Msg.info ("Testing completion with model: " ++ cfg.model)]
  match w.completionCreate with
  | CompletionOutcome.response choices =>
    match choices with
    | [] =>
        (false, pre ++ [Msg.error "Completion test failed - no response received."])
    | c :: _ =>
      if truthyStr c then
        (true, pre ++ [Msg.success "Simple completion test successful!",
                       Msg.info ("Response: " ++ pyStrip (c.getD ""))])
      else
        (false, pre ++ [Msg.error "Completion test failed - no response received."])
  | CompletionOutcome.authenticationError =>
      (false, pre ++ [Msg.error "Authentication failed during completion test."])
  | CompletionOutcome.rateLimitError =>
      (false, pre ++ [Msg.error "Rate limit exceeded. Please wait a moment and try again."])
  | CompletionOutcome.apiError m =>
      (false, pre ++ [Msg.error ("API error during completion test: " ++ m)])
  | CompletionOutcome.otherError m =>
      (false, pre ++ [Msg.error ("Unexpected error during completion test: " ++ m)])

/-- `OpenAIKeyTester.run_comprehensive_test`: runs the four stages in strict
order, recording each executed stage into the ordered `results` dict
(modelled as an association list in insertion order) and returning early
after a stage-1 or stage-2 failure.  The second component is the full trace
of tagged messages emitted during the run. -/
def run_comprehensive_test (cfg : Config) (w : World) : List (String × Bool) × List Msg :=
  let fmt := check_api_key_format cfg
  let t1 := Msg.info "Step 1: Checking API key format..." :: fmt.2
  if ¬ fmt.1 then
    ([("format", fmt.1)], t1)
  else
    let conn := test_connectivity cfg w.modelsGet
    let t2 := t1 ++ Msg.info "Step 2: Testing connectivity..." :: conn.2
    if ¬ conn.1 then
      ([("format", fmt.1), ("connectivity", conn.1)], t2)
    else
      let avail := test_model_availability cfg w
      let compl := test_simple_completion cfg w
      ([("format", fmt.1), ("connectivity", conn.1),
        ("model_available", avail.1), ("completion", compl.1)],
       t2 ++ Msg.info "Step 3: Checking model availability..." :: avail.2
          ++ Msg.info "Step 4: Testing simple completion..." :: compl.2)

/-- Aggregate classification printed by `print_summary`: `allPassed` is the
all-tests-passed message, `mixedPass` the some-tests-passed warning (the
PartialPass class of the spec), `allFailed` the all-tests-failed message. -/
inductive SummaryClass
  | allPassed
  | mixedPass
  | allFailed
deriving DecidableEq

/-- `passed_tests = sum(results.values())` of `print_summary`: summing the
booleans counts the `True` entries. -/
def passedCount (results : List (String × Bool)) : Nat :=
  (results.filter (fun r => r.2)).length

/-- The branch selection of `OpenAIKeyTester.print_summary`:
`if passed_tests == total_tests: ... elif passed_tests > 0: ... else: ...`
over `total_tests = len(results)`. -/
def classifySummary (results : List (String × Bool)) : SummaryClass :=
  if passedCount results = results.length then SummaryClass.allPassed
  else if 0 < passedCount results then SummaryClass.mixedPass
  else SummaryClass.allFailed

/-- Stage-1 outcome classification, named after the error taxonomy of the
spec for the Format Check. -/
inductive FormatResult
  | missingCredential
  | invalidPrefixError
  | tooShort
  | formatOk
deriving DecidableEq

/-- Spec-side classifier for Stage 1, written from the words of the spec
contract: fails `MissingCredential` if absent or empty, `InvalidPrefix` if
the credential does not start with the required prefix literal `sk-`,
`TooShort` if its length is below 20 characters, otherwise passes — checked
in that order. -/
def formatSpec (credential : Option String) : FormatResult :=
  match credential with
  | none => FormatResult.missingCredential
  | some c =>
    if c = "" then FormatResult.missingCredential
    else if ¬ pyStartsWith c "sk-" then FormatResult.invalidPrefixError
    else if c.length < 20 then FormatResult.tooShort
    else FormatResult.formatOk

/-- Rendering of a spec-side Stage-1 outcome as the boolean result and the
diagnostic the source stage emits for it. -/
def formatRender : FormatResult → Bool × List Msg
  | FormatResult.missingCredential => (false, [Msg.error msgNoKey])
  | FormatResult.invalidPrefixError => (false, [Msg.error msgBadStart])
  | FormatResult.tooShort => (false, [Msg.error msgTooShort])
  | FormatResult.formatOk => (true, [Msg.success msgFormatValid])

/-- The fault outcomes of the connectivity request: the three except-clauses
of `test_connectivity` (`Timeout`, `ConnectionError`, any other
`Exception`); receiving a response, whatever its status, is not a fault. -/
def httpFault : HttpOutcome → Bool
  | HttpOutcome.response _ _ => false
  | HttpOutcome.timeout => true
  | HttpOutcome.connectionError => true
  | HttpOutcome.otherError _ => true

/-- The fault outcomes of the completion call: the four except-clauses of
`test_simple_completion` (`AuthenticationError`, `RateLimitError`, any other
`APIError`, any other `Exception`). -/
def completionFault : CompletionOutcome → Bool
  | CompletionOutcome.response _ => false
  | CompletionOutcome.authenticationError => true
  | CompletionOutcome.rateLimitError => true
  | CompletionOutcome.apiError _ => true
  | CompletionOutcome.otherError _ => true

/-- A well-formed configuration: a syntactically valid credential, default
endpoint and default model. -/
def cfgValid : Config := ⟨some "sk-TESTKEY1234567890123", none, "gpt-3.5-turbo"⟩

/-- A configuration with no credential set. -/
def cfgAbsent : Config := ⟨none, none, "gpt-3.5-turbo"⟩

/-- A collaborator answering every call successfully. -/
def wAllOk : World :=
  ⟨HttpOutcome.response 200 "model list", RetrieveOutcome.found,
   RetrieveOutcome.found, CompletionOutcome.response [some "API test successful"]⟩

/-- A collaborator whose model-listing request returns HTTP 401. -/
def w401 : World :=
  ⟨HttpOutcome.response 401 "unauthorized", RetrieveOutcome.found,
   RetrieveOutcome.found, CompletionOutcome.response [some "API test successful"]⟩

/-- A collaborator whose model-listing request returns HTTP 403. -/
def w403 : World :=
  ⟨HttpOutcome.response 403 "forbidden", RetrieveOutcome.found,
   RetrieveOutcome.found, CompletionOutcome.response [some "API test successful"]⟩

/-- A collaborator reporting the requested model as not found but the
fallback model as found. -/
def wFallbackUsed : World :=
  ⟨HttpOutcome.response 200 "model list", RetrieveOutcome.notFound,
   RetrieveOutcome.found, CompletionOutcome.response [some "API test successful"]⟩

/-- A collaborator reporting both the requested model and the fallback model
as not found. -/
def wNoModel : World :=
  ⟨HttpOutcome.response 200 "model list", RetrieveOutcome.notFound,
   RetrieveOutcome.notFound, CompletionOutcome.response [some "API test successful"]⟩

/-- A collaborator whose completion response has an empty first choice
followed by a non-empty second choice. -/
def wSecondChoice : World :=
  ⟨HttpOutcome.response 200 "model list", RetrieveOutcome.found,
   RetrieveOutcome.found, CompletionOutcome.response [none, some "API test successful"]⟩

/-- A collaborator faulting on connectivity (timeout), on the primary model
lookup (a non-NotFound error) and on the completion call. -/
def wFaultPrimary : World :=
  ⟨HttpOutcome.timeout, RetrieveOutcome.error "boom",
   RetrieveOutcome.found, CompletionOutcome.authenticationError⟩

/-- A collaborator whose primary model lookup reports not found and whose
fallback lookup raises a non-NotFound error. -/
def wFaultFallback : World :=
  ⟨HttpOutcome.response 200 "model list", RetrieveOutcome.notFound,
   RetrieveOutcome.error "boom", CompletionOutcome.rateLimitError⟩

/-- The source format stage coincides with the rendered spec classifier of
the credential. -/
theorem check_api_key_format_eq_render (cfg : Config) :
    check_api_key_format cfg = formatRender (formatSpec cfg.api_key) := by
  cases h : cfg.api_key with
  | none => simp [check_api_key_format, formatSpec, formatRender, truthyStr, h]
  | some s =>
    by_cases hs : s = ""
    · simp [check_api_key_format, formatSpec, formatRender, truthyStr, h, hs]
    · by_cases hp : pyStartsWith s "sk-"
      · by_cases hl : s.length < 20
        · simp [check_api_key_format, formatSpec, formatRender, truthyStr, h, hs, hp, hl]
        · simp [check_api_key_format, formatSpec, formatRender, truthyStr, h, hs, hp, hl]
      · simp [check_api_key_format, formatSpec, formatRender, truthyStr, h, hs, hp]

/-- C2: for every configuration, the format stage fails with
`MissingCredential` when the credential is absent or empty, with
`InvalidPrefix` when it does not start with the literal `sk-`, with
`TooShort` when its length is below 20 characters, checked in that order, and
passes otherwise (first conjunct: the stage equals the rendered spec
classifier of the credential); and it is deterministic and makes no network
call (second conjunct: its result depends on nothing but the credential
field — in particular on no network outcome, which the stage is not even
given). -/
theorem C2_format_stage_contract : ∀ cfg : Config,
    check_api_key_format cfg = formatRender (formatSpec cfg.api_key) ∧
    (∀ cfg' : Config, cfg'.api_key = cfg.api_key →
      check_api_key_format cfg' = check_api_key_format cfg) := by
  intro cfg
  refine ⟨check_api_key_format_eq_render cfg, ?_⟩
  intro cfg' h
  rw [check_api_key_format_eq_render cfg, check_api_key_format_eq_render cfg', h]

/-- Witness for C2 at concrete configurations: a well-formed credential
passes, and two configurations sharing the credential but differing in
endpoint and model give the same stage result. -/
theorem C2_format_stage_contract_witness :
    check_api_key_format ⟨some "sk-TESTKEY1234567890123", none, "gpt-3.5-turbo"⟩ =
      formatRender (formatSpec (some "sk-TESTKEY1234567890123")) ∧
    check_api_key_format ⟨some "sk-TESTKEY1234567890123", some "https://other.example", "gpt-4"⟩ =
      check_api_key_format ⟨some "sk-TESTKEY1234567890123", none, "gpt-3.5-turbo"⟩ :=
  ⟨(C2_format_stage_contract ⟨some "sk-TESTKEY1234567890123", none, "gpt-3.5-turbo"⟩).1,
   (C2_format_stage_contract ⟨some "sk-TESTKEY1234567890123", none, "gpt-3.5-turbo"⟩).2
     ⟨some "sk-TESTKEY1234567890123", some "https://other.example", "gpt-4"⟩ rfl⟩

/-- C10: a non-empty credential is treated as present even when no character
of it matches the `sk-` prefix — a whitespace-only string included: the
format stage then fails with the invalid-prefix diagnostic, not the
missing-credential one; and the missing-credential failure occurs exactly
when the credential is absent or the empty string. -/
theorem C10_present_vs_missing : ∀ cfg : Config,
    (check_api_key_format cfg = (false, [Msg.error msgNoKey]) ↔
      cfg.api_key = none ∨ cfg.api_key = some "") ∧
    (∀ s, cfg.api_key = some s → s ≠ "" → pyStartsWith s "sk-" = false →
      check_api_key_format cfg = (false, [Msg.error msgBadStart])) := by
  intro cfg
  constructor
  · rw [check_api_key_format_eq_render cfg]
    cases h : cfg.api_key with
    | none => simp [formatSpec, formatRender]
    | some s =>
      by_cases hs : s = ""
      · simp [formatSpec, formatRender, hs]
      · by_cases hp : pyStartsWith s "sk-"
        · by_cases hl : s.length < 20 <;>
            simp [formatSpec, formatRender, hs, hp, hl, msgNoKey, msgTooShort,
              msgFormatValid]
        · simp [formatSpec, formatRender, hs, hp, msgNoKey, msgBadStart]
  · intro s h hs hp
    rw [check_api_key_format_eq_render cfg, h]
    simp [formatSpec, formatRender, hs, hp]

/-- Witness for C10 at the whitespace-only credential: a single space is
present, so the stage reports the invalid-prefix failure. -/
theorem C10_present_vs_missing_witness :
    check_api_key_format ⟨some " ", none, "gpt-3.5-turbo"⟩ =
      (false, [Msg.error msgBadStart]) :=
  (C10_present_vs_missing ⟨some " ", none, "gpt-3.5-turbo"⟩).2 " " rfl
    (by decide) (by decide)

/-- C1: the RunReport of `run_comprehensive_test` is always a prefix of the
fixed stage order format, connectivity, model_available, completion (first
conjunct: its name sequence is one of the three possible prefixes, so a
stage that did not execute never has an entry); a format failure leaves
exactly the one format entry; a connectivity failure after a format pass
leaves exactly the two entries format=true, connectivity=false; and when
both gates pass all four stages are recorded. -/
theorem C1_report_prefix_shape : ∀ (cfg : Config) (w : World),
    ((run_comprehensive_test cfg w).1.map Prod.fst = ["format"] ∨
     (run_comprehensive_test cfg w).1.map Prod.fst = ["format", "connectivity"] ∨
     (run_comprehensive_test cfg w).1.map Prod.fst =
       ["format", "connectivity", "model_available", "completion"]) ∧
    ((check_api_key_format cfg).1 = false →
      (run_comprehensive_test cfg w).1 = [("format", false)]) ∧
    ((check_api_key_format cfg).1 = true →
      (test_connectivity cfg w.modelsGet).1 = false →
      (run_comprehensive_test cfg w).1 =
        [("format", true), ("connectivity", false)]) ∧
    ((check_api_key_format cfg).1 = true →
      (test_connectivity cfg w.modelsGet).1 = true →
      (run_comprehensive_test cfg w).1 =
        [("format", true), ("connectivity", true),
         ("model_available", (test_model_availability cfg w).1),
         ("completion", (test_simple_completion cfg w).1)]) := by
  intro cfg w
  by_cases hf : (check_api_key_format cfg).1 = true
  · by_cases hc : (test_connectivity cfg w.modelsGet).1 = true
    · simp [run_comprehensive_test, hf, hc]
    · simp only [Bool.not_eq_true] at hc
      simp [run_comprehensive_test, hf, hc]
  · simp only [Bool.not_eq_true] at hf
    simp [run_comprehensive_test, hf]

/-- Witness for C1: an absent credential yields the one-entry report, a 401
on connectivity yields the two-entry report, and a fully successful world
yields the four-entry report. -/
theorem C1_report_prefix_shape_witness :
    (run_comprehensive_test cfgAbsent wAllOk).1 = [("format", false)] ∧
    (run_comprehensive_test cfgValid w401).1 =
      [("format", true), ("connectivity", false)] ∧
    (run_comprehensive_test cfgValid wAllOk).1 =
      [("format", true), ("connectivity", true),
       ("model_available", (test_model_availability cfgValid wAllOk).1),
       ("completion", (test_simple_completion cfgValid wAllOk).1)] :=
  ⟨(C1_report_prefix_shape cfgAbsent wAllOk).2.1 (by decide),
   (C1_report_prefix_shape cfgValid w401).2.2.1 (by decide) (by decide),
   (C1_report_prefix_shape cfgValid wAllOk).2.2.2 (by decide) (by decide)⟩

/-- C3: the connectivity stage maps each outcome of its single GET request
exactly as claimed: 200 passes; 401 fails as authentication failure; 403
fails as forbidden; any other status fails with the unexpected-status
diagnostic carrying the code and the body; a timeout, a connection-level
failure and any other transport fault fail with their respective
diagnostics. -/
theorem C3_connectivity_mapping : ∀ cfg : Config,
    (∀ text, test_connectivity cfg (HttpOutcome.response 200 text) =
      (true, [Msg.info "Testing connectivity to OpenAI API...",
              Msg.success "Successfully connected to OpenAI API."])) ∧
    (∀ text, test_connectivity cfg (HttpOutcome.response 401 text) =
      (false, [Msg.info "Testing connectivity to OpenAI API...",
               Msg.error "Authentication failed. Please check your API key."])) ∧
    (∀ text, test_connectivity cfg (HttpOutcome.response 403 text) =
      (false, [Msg.info "Testing connectivity to OpenAI API...",
               Msg.error "Access forbidden. Your API key may not have the required permissions."])) ∧
    (∀ status text, status ≠ 200 → status ≠ 401 → status ≠ 403 →
      test_connectivity cfg (HttpOutcome.response status text) =
      (false, [Msg.info "Testing connectivity to OpenAI API...",
               Msg.error ("Unexpected response: " ++ toString status ++ " - " ++ text)])) ∧
    test_connectivity cfg HttpOutcome.timeout =
      (false, [Msg.info "Testing connectivity to OpenAI API...",
               Msg.error "Connection timeout. Please check your internet connection."]) ∧
    test_connectivity cfg HttpOutcome.connectionError =
      (false, [Msg.info "Testing connectivity to OpenAI API...",
               Msg.error "Connection failed. Please check your internet connection."]) ∧
    (∀ m, test_connectivity cfg (HttpOutcome.otherError m) =
      (false, [Msg.info "Testing connectivity to OpenAI API...",
               Msg.error ("Unexpected error during connectivity test: " ++ m)])) := by
  intro cfg
  refine ⟨fun text => by simp [test_connectivity],
          fun text => by simp [test_connectivity],
          fun text => by simp [test_connectivity],
          fun status text h200 h401 h403 => by simp [test_connectivity, h200, h401, h403],
          by simp [test_connectivity],
          by simp [test_connectivity],
          fun m => by simp [test_connectivity]⟩

/-- Witness for C3 at a 503 response: none of the three distinguished codes,
so the unexpected-status diagnostic is produced. -/
theorem C3_connectivity_mapping_witness :
    test_connectivity cfgValid (HttpOutcome.response 503 "service down") =
      (false, [Msg.info "Testing connectivity to OpenAI API...",
               Msg.error ("Unexpected response: " ++ toString (503 : Nat) ++ " - " ++ "service down")]) :=
  (C3_connectivity_mapping cfgValid).2.2.2.1 503 "service down"
    (by decide) (by decide) (by decide)

/-- C4: when the primary model lookup reports not found, the stage attempts
the fallback lookup: a found fallback passes the stage with the fallback-used
diagnostics, while a not-found or erroring fallback fails the stage with the
model-unavailable diagnostic; and whenever stages 1 and 2 passed, the
completion stage is recorded in the report regardless of the availability
outcome. -/
theorem C4_fallback_nonfatal : ∀ (cfg : Config) (w : World),
    (w.retrievePrimary = RetrieveOutcome.notFound →
      w.retrieveFallback = RetrieveOutcome.found →
      test_model_availability cfg w =
        (true, [Msg.info ("Checking availability of model: " ++ cfg.model),
                Msg.warning ("Model " ++ cfg.model ++ " not found. Trying with gpt-3.5-turbo..."),
                Msg.success "Fallback model gpt-3.5-turbo is available."])) ∧
    (w.retrievePrimary = RetrieveOutcome.notFound →
      w.retrieveFallback ≠ RetrieveOutcome.found →
      test_model_availability cfg w =
        (false, [Msg.info ("Checking availability of model: " ++ cfg.model),
                 Msg.warning ("Model " ++ cfg.model ++ " not found. Trying with gpt-3.5-turbo..."),
                 Msg.error "Neither the specified model nor fallback model is available."])) ∧
    ((check_api_key_format cfg).1 = true →
      (test_connectivity cfg w.modelsGet).1 = true →
      "completion" ∈ (run_comprehensive_test cfg w).1.map Prod.fst) := by
  intro cfg w
  refine ⟨?_, ?_, ?_⟩
  · intro hp hfb
    simp [test_model_availability, hp, hfb]
  · intro hp hfb
    cases hfb2 : w.retrieveFallback with
    | found => exact absurd hfb2 hfb
    | notFound => simp [test_model_availability, hp, hfb2]
    | error m => simp [test_model_availability, hp, hfb2]
  · intro hf hc
    simp [run_comprehensive_test, hf, hc]

/-- Witness for C4: a found fallback passes the stage, a not-found fallback
fails it, and in the latter world the completion stage still appears in the
report. -/
theorem C4_fallback_nonfatal_witness :
    test_model_availability cfgValid wFallbackUsed =
      (true, [Msg.info ("Checking availability of model: " ++ cfgValid.model),
              Msg.warning ("Model " ++ cfgValid.model ++ " not found. Trying with gpt-3.5-turbo..."),
              Msg.success "Fallback model gpt-3.5-turbo is available."]) ∧
    test_model_availability cfgValid wNoModel =
      (false, [Msg.info ("Checking availability of model: " ++ cfgValid.model),
               Msg.warning ("Model " ++ cfgValid.model ++ " not found. Trying with gpt-3.5-turbo..."),
               Msg.error "Neither the specified model nor fallback model is available."]) ∧
    "completion" ∈ (run_comprehensive_test cfgValid wNoModel).1.map Prod.fst :=
  ⟨(C4_fallback_nonfatal cfgValid wFallbackUsed).1 (by decide) (by decide),
   (C4_fallback_nonfatal cfgValid wNoModel).2.1 (by decide) (by decide),
   (C4_fallback_nonfatal cfgValid wNoModel).2.2 (by decide) (by decide)⟩

/-- C5 counterexample: a successful completion response whose first choice
carries no content but whose second choice carries a non-empty message has
at least one choice with a non-empty generated message, yet the stage fails
— the source inspects only `choices[0]`, so the claimed pass condition
(`at least one choice`) does not hold of the code. -/
theorem C5_counterexample :
    ([none, some "API test successful"] : List (Option String)).any truthyStr = true ∧
    wSecondChoice.completionCreate =
      CompletionOutcome.response [none, some "API test successful"] ∧
    (test_simple_completion cfgValid wSecondChoice).1 = false := by decide

/-- C5 amended: the completion stage passes exactly when the FIRST choice
carries a non-empty message (only `choices[0]` is inspected), capturing its
stripped text; empty choices or an empty/absent first message fail with the
no-response diagnostic; an authentication error, a rate-limit error, any
other structured API error and any other fault fail with their respective
diagnostics. -/
theorem C5_completion_first_choice : ∀ (cfg : Config) (w : World),
    (∀ choices, w.completionCreate = CompletionOutcome.response choices →
      ((test_simple_completion cfg w).1 = true ↔
        truthyStr (choices.headD none) = true)) ∧
    (∀ choices, w.completionCreate = CompletionOutcome.response choices →
      truthyStr (choices.headD none) = false →
      test_simple_completion cfg w =
        (false, [Msg.info ("Testing completion with model: " ++ cfg.model),
                 Msg.error "Completion test failed - no response received."])) ∧
    (∀ c rest, w.completionCreate = CompletionOutcome.response (c :: rest) →
      truthyStr c = true →
      test_simple_completion cfg w =
        (true, [Msg.info ("Testing completion with model: " ++ cfg.model),
                Msg.success "Simple completion test successful!",
                Msg.info ("Response: " ++ pyStrip (c.getD ""))])) ∧
    (w.completionCreate = CompletionOutcome.authenticationError →
      test_simple_completion cfg w =
        (false, [Msg.info ("Testing completion with model: " ++ cfg.model),
                 Msg.error "Authentication failed during completion test."])) ∧
    (w.completionCreate = CompletionOutcome.rateLimitError →
      test_simple_completion cfg w =
        (false, [Msg.info ("Testing completion with model: " ++ cfg.model),
                 Msg.error "Rate limit exceeded. Please wait a moment and try again."])) ∧
    (∀ m, w.completionCreate = CompletionOutcome.apiError m →
      test_simple_completion cfg w =
        (false, [Msg.info ("Testing completion with model: " ++ cfg.model),
                 Msg.error ("API error during completion test: " ++ m)])) ∧
    (∀ m, w.completionCreate = CompletionOutcome.otherError m →
      test_simple_completion cfg w =
        (false, [Msg.info ("Testing completion with model: " ++ cfg.model),
                 Msg.error ("Unexpected error during completion test: " ++ m)])) := by
  intro cfg w
  refine ⟨?_, ?_, ?_, ?_, ?_, ?_, ?_⟩
  · intro choices h
    cases choices with
    | nil => simp [test_simple_completion, h, truthyStr]
    | cons c rest =>
      by_cases ht : truthyStr c = true
      · simp [test_simple_completion, h, ht]
      · simp only [Bool.not_eq_true] at ht
        simp [test_simple_completion, h, ht]
  · intro choices h ht
    cases choices with
    | nil => simp [test_simple_completion, h]
    | cons c rest =>
      simp only [List.headD_cons] at ht
      simp [test_simple_completion, h, ht]
  · intro c rest h ht
    simp [test_simple_completion, h, ht]
  · intro h; simp [test_simple_completion, h]
  · intro h; simp [test_simple_completion, h]
  · intro m h; simp [test_simple_completion, h]
  · intro m h; simp [test_simple_completion, h]

/-- Witness for C5: a non-empty first choice passes with its text captured,
and an empty first choice fails even with a non-empty second choice
present. -/
theorem C5_completion_first_choice_witness :
    test_simple_completion cfgValid wAllOk =
      (true, [Msg.info ("Testing completion with model: " ++ cfgValid.model),
              Msg.success "Simple completion test successful!",
              Msg.info ("Response: " ++ pyStrip ((some "API test successful").getD ""))]) ∧
    test_simple_completion cfgValid wSecondChoice =
      (false, [Msg.info ("Testing completion with model: " ++ cfgValid.model),
               Msg.error "Completion test failed - no response received."]) :=
  ⟨(C5_completion_first_choice cfgValid wAllOk).2.2.1
      (some "API test successful") [] (by decide) (by decide),
   (C5_completion_first_choice cfgValid wSecondChoice).2.1
      [none, some "API test successful"] (by decide) (by decide)⟩

/-- C6 counterexample: `print_summary` has no defensive guard against an
empty report — zero passed of zero total satisfies `passed == total`, so an
empty report is classified as AllPassed, contradicting the claimed guard. -/
theorem C6_counterexample : classifySummary [] = SummaryClass.allPassed := by decide

/-- C6 amended: the summary classification is a pure fold over the report
with passed the count of passed entries and total the count of entries:
passed equal to total yields AllPassed, strictly between zero and total
yields PartialPass, zero passed of a non-empty report yields AllFailed;
there is no defensive guard for an empty report (it falls in the AllPassed
branch), but an empty report never arises from the pipeline since the
format stage always contributes an entry. -/
theorem C6_summary_fold : ∀ (results : List (String × Bool)) (cfg : Config) (w : World),
    (passedCount results = results.length →
      classifySummary results = SummaryClass.allPassed) ∧
    (0 < passedCount results → passedCount results < results.length →
      classifySummary results = SummaryClass.mixedPass) ∧
    (passedCount results = 0 → results ≠ [] →
      classifySummary results = SummaryClass.allFailed) ∧
    (run_comprehensive_test cfg w).1 ≠ [] := by
  intro results cfg w
  refine ⟨?_, ?_, ?_, ?_⟩
  · intro h; simp [classifySummary, h]
  · intro h1 h2
    have hne : passedCount results ≠ results.length := Nat.ne_of_lt h2
    simp [classifySummary, hne, h1]
  · intro h1 h2
    have hlen : results.length ≠ 0 := Nat.pos_iff_ne_zero.mp (List.length_pos.mpr h2)
    have hne0 : ¬ (0 = results.length) := fun hh => hlen hh.symm
    simp [classifySummary, h1, hne0]
  · by_cases hf : (check_api_key_format cfg).1 = true
    · by_cases hc : (test_connectivity cfg w.modelsGet).1 = true
      · simp [run_comprehensive_test, hf, hc]
      · simp only [Bool.not_eq_true] at hc
        simp [run_comprehensive_test, hf, hc]
    · simp only [Bool.not_eq_true] at hf
      simp [run_comprehensive_test, hf]

/-- Witness for C6 at concrete reports: an all-true report, a mixed report,
an all-false report, and the non-emptiness of a pipeline report. -/
theorem C6_summary_fold_witness :
    classifySummary [("format", true)] = SummaryClass.allPassed ∧
    classifySummary [("format", true), ("connectivity", false)] = SummaryClass.mixedPass ∧
    classifySummary [("format", false)] = SummaryClass.allFailed ∧
    (run_comprehensive_test cfgAbsent wAllOk).1 ≠ [] :=
  ⟨(C6_summary_fold [("format", true)] cfgValid wAllOk).1 (by decide),
   (C6_summary_fold [("format", true), ("connectivity", false)] cfgValid wAllOk).2.1
     (by decide) (by decide),
   (C6_summary_fold [("format", false)] cfgValid wAllOk).2.2.1 (by decide) (by decide),
   (C6_summary_fold [] cfgAbsent wAllOk).2.2.2⟩

/-- C7: every fault of the modelled taxonomy — the exception classes the
except-clauses of the three network stages catch — is converted into a
failed boolean stage result at the stage boundary; the stage functions are
total over their outcome types, so no modelled fault escapes a stage to the
caller. -/
theorem C7_faults_contained : ∀ (cfg : Config) (w : World),
    (httpFault w.modelsGet = true → (test_connectivity cfg w.modelsGet).1 = false) ∧
    (∀ m, w.retrievePrimary = RetrieveOutcome.error m →
      (test_model_availability cfg w).1 = false) ∧
    (∀ m, w.retrievePrimary = RetrieveOutcome.notFound →
      w.retrieveFallback = RetrieveOutcome.error m →
      (test_model_availability cfg w).1 = false) ∧
    (completionFault w.completionCreate = true →
      (test_simple_completion cfg w).1 = false) := by
  intro cfg w
  refine ⟨?_, ?_, ?_, ?_⟩
  · intro h
    cases hn : w.modelsGet with
    | response status text => rw [hn] at h; simp [httpFault] at h
    | timeout => simp [test_connectivity]
    | connectionError => simp [test_connectivity]
    | otherError m => simp [test_connectivity]
  · intro m h
    simp [test_model_availability, h]
  · intro m h1 h2
    simp [test_model_availability, h1, h2]
  · intro h
    cases hn : w.completionCreate with
    | response choices => rw [hn] at h; simp [completionFault] at h
    | authenticationError => simp [test_simple_completion, hn]
    | rateLimitError => simp [test_simple_completion, hn]
    | apiError m => simp [test_simple_completion, hn]
    | otherError m => simp [test_simple_completion, hn]

/-- Witness for C7 at concrete faulting collaborators: a connectivity
timeout, an erroring primary lookup, an erroring fallback lookup and an
authentication fault on completion each yield a failed stage result. -/
theorem C7_faults_contained_witness :
    (test_connectivity cfgValid wFaultPrimary.modelsGet).1 = false ∧
    (test_model_availability cfgValid wFaultPrimary).1 = false ∧
    (test_model_availability cfgValid wFaultFallback).1 = false ∧
    (test_simple_completion cfgValid wFaultPrimary).1 = false :=
  ⟨(C7_faults_contained cfgValid wFaultPrimary).1 (by decide),
   (C7_faults_contained cfgValid wFaultPrimary).2.1 "boom" (by decide),
   (C7_faults_contained cfgValid wFaultFallback).2.2.1 "boom" (by decide) (by decide),
   (C7_faults_contained cfgValid wFaultPrimary).2.2.2 (by decide)⟩

/-- C8: two pipeline runs under identical configuration and identical
collaborator responses produce identical results — the embedded pipeline is
a pure function of the configuration and the collaborator, reading no other
state. -/
theorem C8_run_idempotent : ∀ (cfg : Config) (w : World)
    (r₁ r₂ : List (String × Bool) × List Msg),
    r₁ = run_comprehensive_test cfg w → r₂ = run_comprehensive_test cfg w →
    r₁ = r₂ := by
  intro cfg w r₁ r₂ h1 h2
  rw [h1, h2]

/-- Witness for C8 at the all-successful run. -/
theorem C8_run_idempotent_witness :
    run_comprehensive_test cfgValid wAllOk = run_comprehensive_test cfgValid wAllOk :=
  C8_run_idempotent cfgValid wAllOk
    (run_comprehensive_test cfgValid wAllOk) (run_comprehensive_test cfgValid wAllOk) rfl rfl

/-- A failed format stage emits an error diagnostic. -/
theorem format_failed_emits_error (cfg : Config) :
    (check_api_key_format cfg).1 = false →
    ∃ s, Msg.error s ∈ (check_api_key_format cfg).2 := by
  rw [check_api_key_format_eq_render cfg]
  cases formatSpec cfg.api_key <;> simp [formatRender]

/-- A failed connectivity stage emits an error diagnostic. -/
theorem connectivity_failed_emits_error (cfg : Config) (net : HttpOutcome) :
    (test_connectivity cfg net).1 = false →
    ∃ s, Msg.error s ∈ (test_connectivity cfg net).2 := by
  cases net with
  | response status text =>
    intro h
    by_cases h1 : status = 200
    · simp [test_connectivity, h1] at h
    · by_cases h2 : status = 401
      · simp [test_connectivity, h1, h2]
      · by_cases h3 : status = 403
        · simp [test_connectivity, h1, h2, h3]
        · simp [test_connectivity, h1, h2, h3]
  | timeout => intro h; simp [test_connectivity]
  | connectionError => intro h; simp [test_connectivity]
  | otherError m => intro h; simp [test_connectivity]

/-- A failed availability stage emits an error diagnostic. -/
theorem availability_failed_emits_error (cfg : Config) (w : World) :
    (test_model_availability cfg w).1 = false →
    ∃ s, Msg.error s ∈ (test_model_availability cfg w).2 := by
  cases hp : w.retrievePrimary with
  | found => intro h; simp [test_model_availability, hp] at h
  | notFound =>
    intro h
    cases hf : w.retrieveFallback with
    | found => simp [test_model_availability, hp, hf] at h
    | notFound => simp [test_model_availability, hp, hf]
    | error m => simp [test_model_availability, hp, hf]
  | error m => intro h; simp [test_model_availability, hp]

/-- A failed completion stage emits an error diagnostic. -/
theorem completion_failed_emits_error (cfg : Config) (w : World) :
    (test_simple_completion cfg w).1 = false →
    ∃ s, Msg.error s ∈ (test_simple_completion cfg w).2 := by
  cases hc : w.completionCreate with
  | response choices =>
    intro h
    cases choices with
    | nil => simp [test_simple_completion, hc]
    | cons c rest =>
      by_cases ht : truthyStr c = true
      · simp [test_simple_completion, hc, ht] at h
      · simp only [Bool.not_eq_true] at ht
        simp [test_simple_completion, hc, ht]
  | authenticationError => intro h; simp [test_simple_completion, hc]
  | rateLimitError => intro h; simp [test_simple_completion, hc]
  | apiError m => intro h; simp [test_simple_completion, hc]
  | otherError m => intro h; simp [test_simple_completion, hc]

/-- C9 counterexample: the pipeline reports for a 401 world and a 403 world
are identical even though the two runs emit different diagnostics — a report
entry is a bare stage-name/boolean pair carrying no failure reason, so the
report does not distinguish failure reasons as the claim states. -/
theorem C9_counterexample :
    (run_comprehensive_test cfgValid w401).1 = (run_comprehensive_test cfgValid w403).1 ∧
    (run_comprehensive_test cfgValid w401).2 ≠ (run_comprehensive_test cfgValid w403).2 := by
  decide

/-- C9 amended: each report entry is a bare stage-name/boolean pair; the
human-readable diagnostics distinguishing failure reasons are emitted to the
presentation collaborator while the stages run, not carried in the report —
every failed entry is accompanied by at least one error diagnostic in the
emitted trace. -/
theorem C9_report_booleans : ∀ (cfg : Config) (w : World) (name : String),
    (name, false) ∈ (run_comprehensive_test cfg w).1 →
    ∃ s, Msg.error s ∈ (run_comprehensive_test cfg w).2 := by
  intro cfg w name hmem
  by_cases hf : (check_api_key_format cfg).1 = true
  · by_cases hc : (test_connectivity cfg w.modelsGet).1 = true
    · simp [run_comprehensive_test, hf, hc] at hmem
      rcases hmem with ⟨-, hav⟩ | ⟨-, hcm⟩
      · obtain ⟨s, hs⟩ := availability_failed_emits_error cfg w hav
        refine ⟨s, ?_⟩
        simp [run_comprehensive_test, hf, hc]
        tauto
      · obtain ⟨s, hs⟩ := completion_failed_emits_error cfg w hcm
        refine ⟨s, ?_⟩
        simp [run_comprehensive_test, hf, hc]
        tauto
    · simp only [Bool.not_eq_true] at hc
      obtain ⟨s, hs⟩ := connectivity_failed_emits_error cfg w.modelsGet hc
      refine ⟨s, ?_⟩
      simp [run_comprehensive_test, hf, hc]
      tauto
  · simp only [Bool.not_eq_true] at hf
    obtain ⟨s, hs⟩ := format_failed_emits_error cfg hf
    refine ⟨s, ?_⟩
    simp [run_comprehensive_test, hf]
    tauto

/-- Witness for C9 at the absent-credential run: the failed format entry is
accompanied by an emitted error diagnostic. -/
theorem C9_report_booleans_witness :
    ∃ s, Msg.error s ∈ (run_comprehensive_test cfgAbsent wAllOk).2 :=
  C9_report_booleans cfgAbsent wAllOk "format" (by decide)

end KeyTester
